import Mathlib

set_option maxRecDepth 4000

/-
Verification of the submission/deduplication/validation pipeline of
molcalc (src/molcalc/views.py, view ajax_submitquantum), as a shallow
embedding.  The chemistry toolkit, the result store's record type and the
computation pipeline are opaque collaborators and are modelled as an
explicit capability environment; the string manipulation, hashing,
control flow and store updates of the view are translated directly from
the source.
-/

/- ## Text utilities (views.py lines 137-138, 158-161) -/

/-- Models the Python idiom of splitting a string on the closing square
bracket and keeping the last piece: the suffix of the text after its last
closing bracket, or the whole text when no closing bracket occurs. -/
def afterLastClose (s : List Char) : List Char :=
  (s.reverse.takeWhile (fun c => c != ']')).reverse

/-- Whether the text starts with a match of the pattern of views.py line
138: a hash sign, one space, and at least one decimal digit. -/
def isHashSpaceDigit : List Char → Bool
  | a :: b :: c :: _ => a == '#' && b == ' ' && c.isDigit
  | _ => false

/-- Remove one leading match of the pattern: the hash sign, the space, and
the maximal run of digits that follows. -/
def dropHashTok (l : List Char) : List Char :=
  (l.drop 2).dropWhile Char.isDigit

/-- Fuel-driven worker for the regular-expression substitution of
views.py line 138 and 92: scan left to right; delete each leftmost,
maximal match, otherwise emit the character and move on (fuel bounds the
number of scanning steps; the length of the list suffices). -/
def reSubAux : Nat → List Char → List Char
  | 0, l => l
  | _ + 1, [] => []
  | fuel + 1, a :: rest =>
    if isHashSpaceDigit (a :: rest) then reSubAux fuel (dropHashTok (a :: rest))
    else a :: reSubAux fuel rest

/-- Models the regular-expression substitution in views.py line 138 and 92:
every occurrence of a hash sign followed by one space and a maximal
nonempty run of decimal digits is deleted from the text. -/
def reSubHashNum (l : List Char) : List Char :=
  reSubAux l.length l

example : reSubHashNum "atom # 3 N, # 12x".data = "atom  N, x".data := by decide

/-- The diagnostic sanitizer of views.py lines 137-138 (and 91-92): keep
only the text after the last closing bracket, then delete the
hash-space-number tokens. -/
def sanitizeStatus (status : String) : String :=
  String.mk (reSubHashNum (afterLastClose status.data))

/-- Models `s[s.index("\n") + 1:]` from views.py line 160: everything after
the first newline; `none` models the ValueError raised by `str.index` when
the text has no newline. -/
def dropFirstLine (s : List Char) : Option (List Char) :=
  if s.contains '\n' then some ((s.dropWhile (fun c => c != '\n')).tail)
  else none

/-- The header-stripping loop of views.py lines 159-161: drop the first
three lines and put three empty lines in front of the remainder (the
propagated `none` models the uncaught ValueError). -/
def stripHeader3 (s : List Char) : Option (List Char) :=
  (dropFirstLine s).bind fun s1 =>
    (dropFirstLine s1).bind fun s2 =>
      (dropFirstLine s2).map fun s3 => '\n' :: '\n' :: '\n' :: s3

/- ## UTF-8 encoding (models str.encode("utf-8")) -/

/-- Standard UTF-8 encoding of a single code point, as a list of byte
values. -/
def utf8EncodeChar (c : Char) : List Nat :=
  let n := c.toNat
  if n < 128 then [n]
  else if n < 2048 then [192 + n / 64, 128 + n % 64]
  else if n < 65536 then [224 + n / 4096, 128 + (n / 64) % 64, 128 + n % 64]
  else [240 + n / 262144, 128 + (n / 4096) % 64, 128 + (n / 64) % 64,
        128 + n % 64]

/-- UTF-8 encoding of a text, as a list of byte values. -/
def utf8Encode (s : List Char) : List Nat :=
  (s.map utf8EncodeChar).flatten

/- ## MD5 (models hashlib.md5(...).hexdigest(), views.py line 163) -/

/-- Per-round left-rotation amounts of MD5 (RFC 1321). -/
def md5shift : List Nat :=
  [7, 12, 17, 22, 7, 12, 17, 22, 7, 12, 17, 22, 7, 12, 17, 22,
   5, 9, 14, 20, 5, 9, 14, 20, 5, 9, 14, 20, 5, 9, 14, 20,
   4, 11, 16, 23, 4, 11, 16, 23, 4, 11, 16, 23, 4, 11, 16, 23,
   6, 10, 15, 21, 6, 10, 15, 21, 6, 10, 15, 21, 6, 10, 15, 21]

/-- Per-round additive constants of MD5 (RFC 1321). -/
def md5K : List Nat :=
  [0xd76aa478, 0xe8c7b756, 0x242070db, 0xc1bdceee,
   0xf57c0faf, 0x4787c62a, 0xa8304613, 0xfd469501,
   0x698098d8, 0x8b44f7af, 0xffff5bb1, 0x895cd7be,
   0x6b901122, 0xfd987193, 0xa679438e, 0x49b40821,
   0xf61e2562, 0xc040b340, 0x265e5a51, 0xe9b6c7aa,
   0xd62f105d, 0x02441453, 0xd8a1e681, 0xe7d3fbc8,
   0x21e1cde6, 0xc33707d6, 0xf4d50d87, 0x455a14ed,
   0xa9e3e905, 0xfcefa3f8, 0x676f02d9, 0x8d2a4c8a,
   0xfffa3942, 0x8771f681, 0x6d9d6122, 0xfde5380c,
   0xa4beea44, 0x4bdecfa9, 0xf6bb4b60, 0xbebfbc70,
   0x289b7ec6, 0xeaa127fa, 0xd4ef3085, 0x04881d05,
   0xd9d4d039, 0xe6db99e5, 0x1fa27cf8, 0xc4ac5665,
   0xf4292244, 0x432aff97, 0xab9423a7, 0xfc93a039,
   0x655b59c3, 0x8f0ccc92, 0xffeff47d, 0x85845dd1,
   0x6fa87e4f, 0xfe2ce6e0, 0xa3014314, 0x4e0811a1,
   0xf7537e82, 0xbd3af235, 0x2ad7d2bb, 0xeb86d391]

/-- Truncation to a 32-bit word. -/
def mask32 (x : Nat) : Nat := x % 4294967296

/-- 32-bit complement. -/
def bnot32 (x : Nat) : Nat := Nat.xor x 4294967295

/-- 32-bit left rotation. -/
def rotl32 (x : Nat) (c : Nat) : Nat :=
  Nat.lor (mask32 (Nat.shiftLeft x c)) (Nat.shiftRight x (32 - c))

/-- Little-endian byte decomposition of a number, `count` bytes. -/
def leBytes (n : Nat) : Nat → List Nat
  | 0 => []
  | k + 1 => (n % 256) :: leBytes (n / 256) k

/-- Assemble little-endian 32-bit words from a list of bytes. -/
def bytesToWords : List Nat → List Nat
  | b0 :: b1 :: b2 :: b3 :: rest =>
    (b0 + 256 * b1 + 65536 * b2 + 16777216 * b3) :: bytesToWords rest
  | _ => []

/-- MD5 padding: append the 0x80 marker, zero bytes up to 56 mod 64, and
the 8-byte little-endian bit length. -/
def md5pad (msg : List Nat) : List Nat :=
  let len := msg.length
  let zeros := (120 - ((len + 1) % 64)) % 64
  msg ++ [128] ++ List.replicate zeros 0 ++ leBytes (8 * len) 8

/-- One MD5 round (index `i` from 0 to 63) over state (A, B, C, D) with
message words `M`. -/
def md5round (M : List Nat) (i : Nat) (st : Nat × Nat × Nat × Nat) :
    Nat × Nat × Nat × Nat :=
  let (A, B, C, D) := st
  let FG : Nat × Nat :=
    if i < 16 then
      (Nat.lor (Nat.land B C) (Nat.land (bnot32 B) D), i)
    else if i < 32 then
      (Nat.lor (Nat.land D B) (Nat.land (bnot32 D) C), (5 * i + 1) % 16)
    else if i < 48 then
      (Nat.xor B (Nat.xor C D), (3 * i + 5) % 16)
    else
      (Nat.xor C (Nat.lor B (bnot32 D)), (7 * i) % 16)
  let F := mask32 (FG.1 + A + md5K.getD i 0 + M.getD FG.2 0)
  (D, mask32 (B + rotl32 F (md5shift.getD i 0)), B, C)

/-- Process one 64-byte block. -/
def md5block (st : Nat × Nat × Nat × Nat) (block : List Nat) :
    Nat × Nat × Nat × Nat :=
  let M := bytesToWords block
  let r := (List.range 64).foldl (fun s i => md5round M i s) st
  (mask32 (st.1 + r.1), mask32 (st.2.1 + r.2.1),
   mask32 (st.2.2.1 + r.2.2.1), mask32 (st.2.2.2 + r.2.2.2))

/-- Fuel-driven worker splitting a byte list into 64-byte blocks (fuel at
least the length of the list suffices). -/
def chunks64Aux : Nat → List Nat → List (List Nat)
  | 0, _ => []
  | _ + 1, [] => []
  | fuel + 1, l => l.take 64 :: chunks64Aux fuel (l.drop 64)

/-- Split a byte list into 64-byte blocks. -/
def chunks64 (l : List Nat) : List (List Nat) :=
  chunks64Aux l.length l

/-- The MD5 compression over all blocks of the padded message. -/
def md5core (msg : List Nat) : Nat × Nat × Nat × Nat :=
  (chunks64 (md5pad msg)).foldl md5block
    (0x67452301, 0xefcdab89, 0x98badcfe, 0x10325476)

/-- Lowercase hexadecimal digit. -/
def hexDigit (n : Nat) : Char :=
  if n < 10 then Char.ofNat (48 + n) else Char.ofNat (87 + n)

/-- Two lowercase hex characters of one byte. -/
def byteToHex (b : Nat) : List Char := [hexDigit (b / 16), hexDigit (b % 16)]

/-- Hex rendering of a 32-bit word, little-endian byte order (as in an MD5
hexdigest). -/
def wordLEHex (w : Nat) : List Char :=
  ((leBytes w 4).map byteToHex).flatten

/-- `hashlib.md5(bytes).hexdigest()`: the 32-character lowercase
hexadecimal MD5 digest of a byte list. -/
def md5hex (msg : List Nat) : String :=
  match md5core msg with
  | (a, b, c, d) =>
    String.mk (wordLEHex a ++ wordLEHex b ++ wordLEHex c ++ wordLEHex d)

example : md5hex [] = "d41d8cd98f00b204e9800998ecf8427e" := by decide

example : md5hex (utf8Encode "abc".data) =
    "900150983cd24fb0d6963f7d28e17f72" := by decide

/- ## Data model -/

/-- A persisted GamessCalculation record, keyed by its fingerprint hash;
`created` is the creation / last-touched timestamp, `data` abstracts every
other column (opaque to this subsystem). -/
structure CalcRecord where
  hashkey : String
  created : Nat
  data : String
deriving DecidableEq

/-- Application settings consumed by the view: the optional block-list
(settings[constants.COLUMN_BLOCK_IP], `none` when the key is absent) and
the remaining, opaque configuration. -/
structure Settings where
  blockIps : Option (List String)
  rest : List (String × String)
deriving DecidableEq

/-- The inbound request: the client address and the POST multidict. -/
structure Request where
  remote_addr : String
  post : List (String × String)
deriving DecidableEq

/-- Observable calls made by the view to its external collaborators, in
order. -/
inductive Event where
  | parse : Event
  | addHs : Event
  | embed : Nat → Event
  | optimize : Event
  | lookup : String → Event
  | pipelineRun : String → Event
  | logError : String → List Char → Event
  | dbAdd : CalcRecord → Event
deriving DecidableEq

/-- The JSON payload the view answers with, or an exception escaping it. -/
inductive Response where
  | err : String → String → Response
  | keyMsg : String → Response
  | pipeMsg : String → Response
  | raised : String → Response
deriving DecidableEq

/-- Result of one call of the view: response, the store afterwards, and
the trace of collaborator calls. -/
structure SubmitOut where
  resp : Response
  store : List CalcRecord
  events : List Event
deriving DecidableEq

/-- The opaque chemistry-toolkit / pipeline capabilities consumed by the
view, over an abstract molecule-handle type. -/
structure ChemEnv (Mol : Type) where
  sdfstr_to_molobj : List Char → Option Mol × String
  molobj_to_atoms : Mol → List Nat
  hasConformer : Mol → Bool
  addHs : Mol → Mol
  embedConfs : Mol → Nat → Mol
  molobj_optimize : Mol → Mol
  molobj_to_sdfstr : Mol → List Char
  calculation_pipeline :
    List Char → Mol → String → Settings → Except String (String × Option CalcRecord)

/- ## The view, translated from views.py lines 114-187 -/

/-- Lookup in the POST multidict (WebOb semantics: the last value stored
under the key). -/
def postGet (post : List (String × String)) (key : String) : Option String :=
  (post.reverse.find? (fun p => p.1 == key)).map (fun p => p.2)

/-- views.py line 133: the add_hydrogens flag is the string comparison
`request.POST.get("add_hydrogens", "1") == "1"`. -/
def addHydrogensFlag (post : List (String × String)) : Bool :=
  (postGet post "add_hydrogens").getD "1" == "1"

/-- views.py line 123: the client address is blocked when the block-list
setting exists and contains it. -/
def isBlocked (settings : Settings) (ip : String) : Bool :=
  match settings.blockIps with
  | some ips => ips.contains ip
  | none => false

/-- The heavy-atom ceiling, views.py line 153 (a literal in the view; not
read from settings). -/
def max_atoms : Nat := 10

/-- views.py lines 146-151: if no hydrogen is present and the flag is on,
add hydrogens, embed one conformer and optimize; otherwise leave the
molecule untouched.  Also yields the collaborator calls made. -/
def normalizeStep {Mol : Type} (env : ChemEnv Mol) (molobj : Mol)
    (add_hydrogens : Bool) : Mol × List Event :=
  let atoms := env.molobj_to_atoms molobj
  if !atoms.contains 1 && add_hydrogens then
    (env.molobj_optimize (env.embedConfs (env.addHs molobj) 1),
     [Event.addHs, Event.embed 1, Event.optimize])
  else (molobj, [])

/-- The fingerprint key the view derives from the submitted structure
text: strip the three header lines, then take the MD5 hexdigest of the
UTF-8 bytes (views.py lines 158-163); `none` when the text has fewer than
three newlines (the view would raise ValueError there). -/
def hashkeyOfSdf (sdf : List Char) : Option String :=
  (stripHeader3 sdf).map (fun canonical => md5hex (utf8Encode canonical))

/-- views.py lines 167-169: the dedup hit updates `created` of the first
record found under the key; everything else in the store is untouched. -/
def touchFirst : List CalcRecord → String → Nat → List CalcRecord
  | [], _, _ => []
  | r :: rs, k, now =>
    if r.hashkey == k then { r with created := now } :: rs
    else r :: touchFirst rs k now

/-- views.py lines 152-187: the tail of the view after parsing,
conformer check and normalization have succeeded — the heavy-atom
ceiling, the header strip, the hashing, the dedup lookup and the
hit/miss handling.  `sdfData` is the submitted structure text, `molobj2`
the (possibly hydrogenated) molecule and `nev` the normalization trace. -/
def submitAfterChecks {Mol : Type} (env : ChemEnv Mol) (settings : Settings)
    (store : List CalcRecord) (now : Nat) (sdfData : List Char) (molobj2 : Mol)
    (nev : List Event) : SubmitOut :=
  if ((env.molobj_to_atoms molobj2).filter (fun a => a != 1)).length
      > max_atoms then
    ⟨Response.err "Error 194 - max atoms error" "Stop Casper. Max ten heavy atoms.",
     store, Event.parse :: nev⟩
  else
    match stripHeader3 sdfData with
    | none => ⟨Response.raised "ValueError", store, Event.parse :: nev⟩
    | some canonical =>
      match store.find? (fun r => r.hashkey == md5hex (utf8Encode canonical)) with
      | some _ =>
        ⟨Response.keyMsg (md5hex (utf8Encode canonical)),
         touchFirst store (md5hex (utf8Encode canonical)) now,
         Event.parse :: nev ++ [Event.lookup (md5hex (utf8Encode canonical))]⟩
      | none =>
        match env.calculation_pipeline canonical molobj2
            (md5hex (utf8Encode canonical)) settings with
        | Except.error _ =>
          ⟨Response.err "293" "Internal server server. Uncaught exception",
           store,
           Event.parse :: nev ++
             [Event.lookup (md5hex (utf8Encode canonical)),
              Event.pipelineRun (md5hex (utf8Encode canonical)),
              Event.logError (md5hex (utf8Encode canonical))
                (env.molobj_to_sdfstr molobj2)]⟩
        | Except.ok (msg, some newCalc) =>
          ⟨Response.pipeMsg msg, store ++ [newCalc],
           Event.parse :: nev ++
             [Event.lookup (md5hex (utf8Encode canonical)),
              Event.pipelineRun (md5hex (utf8Encode canonical)),
              Event.dbAdd newCalc]⟩
        | Except.ok (msg, none) =>
          ⟨Response.pipeMsg msg, store,
           Event.parse :: nev ++
             [Event.lookup (md5hex (utf8Encode canonical)),
              Event.pipelineRun (md5hex (utf8Encode canonical))]⟩

/-- The quantum-submission view ajax_submitquantum (views.py lines
114-187), one call, as a function of the capability environment, the
settings, the request, the store contents and the current time. -/
def ajax_submitquantum {Mol : Type} (env : ChemEnv Mol) (settings : Settings)
    (request : Request) (store : List CalcRecord) (now : Nat) : SubmitOut :=
  if isBlocked settings request.remote_addr then
    ⟨Response.err "Error 194 - blocked ip" "IP address has been blocked for missue",
     store, []⟩
  else if request.post.isEmpty then
    ⟨Response.err "Error 128 - empty post" "Error. Empty post.", store, []⟩
  else
    match postGet request.post "sdf" with
    | none => ⟨Response.raised "KeyError", store, []⟩
    | some sdfField =>
      if sdfField = "" then
        ⟨Response.err "Error 132 - sdf key error" "Error. Missing information.",
         store, []⟩
      else
        match env.sdfstr_to_molobj sdfField.data with
        | (none, status) =>
          ⟨Response.err "Error 141 - rdkit error" (sanitizeStatus status),
           store, [Event.parse]⟩
        | (some molobj, _) =>
          if env.hasConformer molobj then
            match normalizeStep env molobj (addHydrogensFlag request.post) with
            | (molobj2, nev) =>
              submitAfterChecks env settings store now sdfField.data molobj2 nev
          else
            ⟨Response.err "Error 141 - rdkit error"
               "Error. Server was unable to generate conformations for this molecule",
             store, [Event.parse]⟩

/-- Refinement comparator, modelled from the spec's words for
FingerprintKey.computeKey: "serialize molecule to ledger text", strip the
three header lines, hash.  The molecule serialized is the normalized one.
This is compared below against the key the view actually computes. -/
def specSerializedKey {Mol : Type} (env : ChemEnv Mol) (normalized : Mol) :
    Option String :=
  (stripHeader3 (env.molobj_to_sdfstr normalized)).map
    (fun canonical => md5hex (utf8Encode canonical))

/- ## Helper lemmas: the store touch -/

lemma touchFirst_length (l : List CalcRecord) (k : String) (n : Nat) :
    (touchFirst l k n).length = l.length := by
  induction l with
  | nil => rfl
  | cons r rs ih =>
    by_cases h : r.hashkey == k
    · simp [touchFirst, h]
    · simp [touchFirst, h, ih]

lemma touchFirst_mem (l : List CalcRecord) (k : String) (n : Nat) :
    ∀ r ∈ touchFirst l k n,
      r ∈ l ∨ ∃ r2 ∈ l, r2.hashkey = r.hashkey ∧ r2.data = r.data ∧
        r.created = n := by
  induction l with
  | nil => intro r h; cases h
  | cons r0 rs ih =>
    intro r h
    by_cases hk : r0.hashkey == k
    · rw [touchFirst, if_pos hk] at h
      rcases List.mem_cons.mp h with h1 | h1
      · right
        exact ⟨r0, List.mem_cons_self r0 rs, by rw [h1], by rw [h1], by rw [h1]⟩
      · left
        exact List.mem_cons_of_mem r0 h1
    · rw [touchFirst, if_neg hk] at h
      rcases List.mem_cons.mp h with h1 | h1
      · left
        rw [h1]
        exact List.mem_cons_self r0 rs
      · rcases ih r h1 with h2 | ⟨r2, hr2, he⟩
        · exact Or.inl (List.mem_cons_of_mem r0 h2)
        · exact Or.inr ⟨r2, List.mem_cons_of_mem r0 hr2, he⟩

/- ## Helper lemmas: header stripping -/

lemma list_contains_iff_mem {α : Type} [BEq α] [LawfulBEq α] {a : α}
    {l : List α} : l.contains a = true ↔ a ∈ l :=
  List.elem_iff

lemma dropWhile_newline_of_mem (s : List Char) (h : '\n' ∈ s) :
    ∃ t, s.dropWhile (fun c => c != '\n') = '\n' :: t := by
  induction s with
  | nil => cases h
  | cons a rest ih =>
    by_cases ha : a = '\n'
    · subst ha
      exact ⟨rest, by rw [List.dropWhile_cons]; simp⟩
    · have hrest : '\n' ∈ rest := by
        rcases List.mem_cons.mp h with h1 | h1
        · exact absurd h1.symm ha
        · exact h1
      rcases ih hrest with ⟨t, ht⟩
      refine ⟨t, ?_⟩
      rw [List.dropWhile_cons, if_pos (by simpa using bne_iff_ne.mpr ha)]
      exact ht

lemma dropFirstLine_eq_some {s s1 : List Char} (h : dropFirstLine s = some s1) :
    ∃ l, s = l ++ '\n' :: s1 ∧ '\n' ∉ l := by
  unfold dropFirstLine at h
  by_cases hc : s.contains '\n' = true
  · rw [if_pos hc] at h
    rcases dropWhile_newline_of_mem s (list_contains_iff_mem.mp hc) with ⟨t, ht⟩
    refine ⟨s.takeWhile (fun c => c != '\n'), ?_, ?_⟩
    · have hdec := List.takeWhile_append_dropWhile (l := s) (p := fun c => c != '\n')
      rw [ht] at hdec
      rw [ht] at h
      simp only [List.tail_cons, Option.some.injEq] at h
      rw [← h]
      exact hdec.symm
    · intro hmem
      have hall := List.all_takeWhile (l := s) (p := fun c => c != '\n')
      have := List.all_eq_true.mp hall _ hmem
      simp at this
  · rw [if_neg hc] at h
    cases h

lemma dropWhile_tail_append {hd : List Char} (rest : List Char)
    (hh : '\n' ∉ hd) :
    ((hd ++ '\n' :: rest).dropWhile (fun c => c != '\n')).tail = rest := by
  induction hd with
  | nil => rw [List.nil_append, List.dropWhile_cons]; simp
  | cons a as ih =>
    have ha : a ≠ '\n' := fun h => hh (h ▸ List.mem_cons_self a as)
    have has : '\n' ∉ as := fun h => hh (List.mem_cons_of_mem a h)
    rw [List.cons_append, List.dropWhile_cons,
      if_pos (by simpa using bne_iff_ne.mpr ha)]
    exact ih has

lemma dropFirstLine_append {hd : List Char} (hh : '\n' ∉ hd)
    (rest : List Char) : dropFirstLine (hd ++ '\n' :: rest) = some rest := by
  have hc : (hd ++ '\n' :: rest).contains '\n' = true :=
    list_contains_iff_mem.mpr (List.mem_append_right hd (List.mem_cons_self _ _))
  unfold dropFirstLine
  rw [if_pos hc, dropWhile_tail_append rest hh]

lemma stripHeader3_append (l1 l2 l3 rest : List Char)
    (h1 : '\n' ∉ l1) (h2 : '\n' ∉ l2) (h3 : '\n' ∉ l3) :
    stripHeader3 (l1 ++ '\n' :: (l2 ++ '\n' :: (l3 ++ '\n' :: rest)))
      = some ('\n' :: '\n' :: '\n' :: rest) := by
  simp only [stripHeader3, dropFirstLine_append h1, dropFirstLine_append h2,
    dropFirstLine_append h3, Option.some_bind, Option.map_some']

lemma stripHeader3_eq_some {s canonical : List Char}
    (h : stripHeader3 s = some canonical) :
    ∃ t, canonical = '\n' :: '\n' :: '\n' :: t ∧
      ∃ l1 l2 l3, s = l1 ++ '\n' :: (l2 ++ '\n' :: (l3 ++ '\n' :: t)) ∧
        '\n' ∉ l1 ∧ '\n' ∉ l2 ∧ '\n' ∉ l3 := by
  unfold stripHeader3 at h
  cases e1 : dropFirstLine s with
  | none => rw [e1, Option.none_bind] at h; cases h
  | some s1 =>
    rw [e1, Option.some_bind] at h
    cases e2 : dropFirstLine s1 with
    | none => rw [e2, Option.none_bind] at h; cases h
    | some s2 =>
      rw [e2, Option.some_bind] at h
      cases e3 : dropFirstLine s2 with
      | none => rw [e3, Option.map_none'] at h; cases h
      | some s3 =>
        rw [e3, Option.map_some'] at h
        simp only [Option.some.injEq] at h
        rcases dropFirstLine_eq_some e1 with ⟨l1, hs1, hn1⟩
        rcases dropFirstLine_eq_some e2 with ⟨l2, hs2, hn2⟩
        rcases dropFirstLine_eq_some e3 with ⟨l3, hs3, hn3⟩
        exact ⟨s3, h.symm, l1, l2, l3, by rw [hs1, hs2, hs3], hn1, hn2, hn3⟩

/- ## Helper lemmas: the sanitizer -/

lemma mem_afterLastClose {c : Char} {s : List Char}
    (h : c ∈ afterLastClose s) : c ≠ ']' := by
  unfold afterLastClose at h
  have h1 : c ∈ s.reverse.takeWhile (fun c => c != ']') :=
    List.mem_reverse.mp h
  have hall := List.all_takeWhile (l := s.reverse) (p := fun c => c != ']')
  have := List.all_eq_true.mp hall _ h1
  simpa using this

lemma mem_reSubAux {c : Char} :
    ∀ (fuel : Nat) (l : List Char), c ∈ reSubAux fuel l → c ∈ l := by
  intro fuel
  induction fuel with
  | zero => intro l h; exact h
  | succ n ih =>
    intro l h
    cases l with
    | nil => cases h
    | cons a rest =>
      rw [reSubAux] at h
      by_cases hd : isHashSpaceDigit (a :: rest) = true
      · rw [if_pos hd] at h
        have h2 := ih _ h
        unfold dropHashTok at h2
        exact List.drop_subset 2 (a :: rest) (List.dropWhile_subset _ h2)
      · rw [if_neg hd] at h
        rcases List.mem_cons.mp h with h1 | h1
        · exact h1 ▸ List.mem_cons_self a rest
        · exact List.mem_cons_of_mem a (ih rest h1)

lemma close_not_mem_sanitizeStatus (status : String) :
    ']' ∉ (sanitizeStatus status).data := by
  intro h
  unfold sanitizeStatus at h
  have h1 : (']' : Char) ∈ reSubHashNum (afterLastClose status.data) := h
  unfold reSubHashNum at h1
  exact absurd rfl (mem_afterLastClose (mem_reSubAux _ _ h1))

/-- A bracket-delimited numeric index token: an opening bracket, a hash
sign, a nonempty run of digits, a closing bracket, somewhere in the
text. -/
def hasBracketedIndexToken (m : List Char) : Prop :=
  ∃ pre ds post, ds ≠ [] ∧ (∀ c ∈ ds, c.isDigit = true) ∧
    m = pre ++ '[' :: '#' :: (ds ++ ']' :: post)

lemma no_token_of_no_close {m : List Char} (h : ']' ∉ m) :
    ¬ hasBracketedIndexToken m := by
  rintro ⟨pre, ds, post, -, -, rfl⟩
  exact h (List.mem_append_right pre (List.mem_cons_of_mem _
    (List.mem_cons_of_mem _ (List.mem_append_right ds (List.mem_cons_self _ _)))))

/- ## Helper lemmas: shape of the hexdigest -/

/-- A lowercase hexadecimal character. -/
def isHexLower (c : Char) : Bool :=
  c.isDigit || ('a' ≤ c && c ≤ 'f')

lemma leBytes_length : ∀ (k n : Nat), (leBytes n k).length = k := by
  intro k
  induction k with
  | zero => intro n; rfl
  | succ j ih => intro n; simp [leBytes, ih]

lemma leBytes_lt : ∀ (k n : Nat), ∀ b ∈ leBytes n k, b < 256 := by
  intro k
  induction k with
  | zero => intro n b hb; cases hb
  | succ j ih =>
    intro n b hb
    rcases List.mem_cons.mp hb with h1 | h1
    · rw [h1]; exact Nat.mod_lt n (by omega)
    · exact ih (n / 256) b h1

lemma hexDigit_isHexLower {n : Nat} (h : n < 16) :
    isHexLower (hexDigit n) = true := by
  interval_cases n <;> decide

lemma byteToHex_isHexLower {b : Nat} (hb : b < 256) :
    ∀ c ∈ byteToHex b, isHexLower c = true := by
  intro c hc
  rcases List.mem_cons.mp hc with h1 | h1
  · rw [h1]; exact hexDigit_isHexLower (by omega)
  · rcases List.mem_cons.mp h1 with h2 | h2
    · rw [h2]; exact hexDigit_isHexLower (Nat.mod_lt b (by omega))
    · cases h2

lemma flatten_map_byteToHex_length (bs : List Nat) :
    ((bs.map byteToHex).flatten).length = 2 * bs.length := by
  induction bs with
  | nil => rfl
  | cons b tl ih =>
    simp only [List.map_cons, List.flatten_cons, List.length_append, ih,
      byteToHex, List.length_cons, List.length_nil]
    omega

lemma wordLEHex_length (w : Nat) : (wordLEHex w).length = 8 := by
  unfold wordLEHex
  rw [flatten_map_byteToHex_length, leBytes_length]

lemma wordLEHex_isHexLower (w : Nat) :
    ∀ c ∈ wordLEHex w, isHexLower c = true := by
  intro c hc
  unfold wordLEHex at hc
  rcases List.mem_flatten.mp hc with ⟨piece, hpiece, hcp⟩
  rcases List.mem_map.mp hpiece with ⟨b, hb, hbp⟩
  exact byteToHex_isHexLower (leBytes_lt 4 w b hb) c (hbp ▸ hcp)

lemma md5hex_length (msg : List Nat) : (md5hex msg).length = 32 := by
  unfold md5hex
  rcases md5core msg with ⟨a, b, c, d⟩
  simp [String.length, wordLEHex_length]

lemma md5hex_isHexLower (msg : List Nat) :
    ∀ c ∈ (md5hex msg).data, isHexLower c = true := by
  unfold md5hex
  rcases md5core msg with ⟨a, b, cc, d⟩
  intro c hc
  simp only [String.mk, List.mem_append] at hc
  rcases hc with ((h1 | h1) | h1) | h1 <;>
    exact wordLEHex_isHexLower _ c h1

/- ## Helper lemmas: the normalization events -/

lemma normalizeStep_events {Mol : Type} (env : ChemEnv Mol) (m : Mol)
    (b : Bool) :
    (normalizeStep env m b).2 = [] ∨
      (normalizeStep env m b).2 = [Event.addHs, Event.embed 1, Event.optimize] := by
  unfold normalizeStep
  by_cases h : (!(env.molobj_to_atoms m).contains 1 && b) = true
  · rw [if_pos h]; right; rfl
  · rw [if_neg h]; left; rfl

/- ## Reduction of the view through its guards -/

lemma ajax_reduce {Mol : Type} (env : ChemEnv Mol) (settings : Settings)
    (request : Request) (store : List CalcRecord) (now : Nat)
    (s : String) (m m2 : Mol) (st2 : String) (nev : List Event)
    (hblock : isBlocked settings request.remote_addr = false)
    (hpost : request.post.isEmpty = false)
    (hsdf : postGet request.post "sdf" = some s)
    (hne : s ≠ "")
    (hparse : env.sdfstr_to_molobj s.data = (some m, st2))
    (hconf : env.hasConformer m = true)
    (hnorm : normalizeStep env m (addHydrogensFlag request.post) = (m2, nev)) :
    ajax_submitquantum env settings request store now =
      submitAfterChecks env settings store now s.data m2 nev := by
  simp only [ajax_submitquantum, hblock, hpost, hsdf, hne, hparse, hconf,
    hnorm, Bool.false_eq_true, if_false, ite_false, ite_true, if_true]

/- ## A minimal concrete environment for closed evaluations -/

/-- A concrete capability environment over a trivial molecule type, used
only to evaluate the view on inputs that never reach the toolkit. -/
def env0 : ChemEnv Nat where
  sdfstr_to_molobj := fun _ => (none, "")
  molobj_to_atoms := fun _ => []
  hasConformer := fun _ => false
  addHs := fun m => m
  embedConfs := fun m _ => m
  molobj_optimize := fun m => m
  molobj_to_sdfstr := fun _ => []
  calculation_pipeline := fun _ _ _ _ => Except.error ""

/- ## C7: block-list short-circuit -/

/-- C7: when the client address is on the configured block-list, the view
answers the blocked-ip error at once: the store is returned unchanged and
the event trace is empty — no codec call, no normalization, no store
access — whatever the rest of the request holds. -/
theorem molcalc_C7_blocklist_short_circuit {Mol : Type} (env : ChemEnv Mol)
    (settings : Settings) (request : Request) (store : List CalcRecord)
    (now : Nat) (ips : List String)
    (hips : settings.blockIps = some ips)
    (hmem : ips.contains request.remote_addr = true) :
    ajax_submitquantum env settings request store now =
      ⟨Response.err "Error 194 - blocked ip"
        "IP address has been blocked for missue", store, []⟩ := by
  have hb : isBlocked settings request.remote_addr = true := by
    unfold isBlocked
    rw [hips]
    exact hmem
  simp [ajax_submitquantum, hb]

/-- Witness for C7 at a concrete blocked request carrying a valid
payload. -/
theorem molcalc_C7_witness :
    ((⟨some ["9.9.9.9"], []⟩ : Settings).blockIps = some ["9.9.9.9"]) ∧
    (["9.9.9.9"].contains ("9.9.9.9" : String) = true) ∧
    ajax_submitquantum env0 ⟨some ["9.9.9.9"], []⟩
        ⟨"9.9.9.9", [("sdf", "a\nb\nc\nC 0 0 0\n")]⟩ [] 0 =
      ⟨Response.err "Error 194 - blocked ip"
        "IP address has been blocked for missue", [], []⟩ :=
  ⟨rfl, by decide,
    molcalc_C7_blocklist_short_circuit env0 ⟨some ["9.9.9.9"], []⟩
      ⟨"9.9.9.9", [("sdf", "a\nb\nc\nC 0 0 0\n")]⟩ [] 0 ["9.9.9.9"] rfl
      (by decide)⟩

/- ## C10: the add_hydrogens flag -/

/-- C10: the add_hydrogens flag of the view is true exactly when the
add_hydrogens field is absent (the default applies) or its value is the
string "1"; every other value — "true", "True", "yes" included — turns it
off. -/
theorem molcalc_C10_add_hydrogens_flag :
    (∀ post : List (String × String),
      addHydrogensFlag post = true ↔
        (postGet post "add_hydrogens" = none ∨
         postGet post "add_hydrogens" = some "1")) ∧
    addHydrogensFlag [("add_hydrogens", "true")] = false ∧
    addHydrogensFlag [("add_hydrogens", "True")] = false ∧
    addHydrogensFlag [("add_hydrogens", "yes")] = false ∧
    addHydrogensFlag [("add_hydrogens", "1")] = true ∧
    addHydrogensFlag [] = true := by
  refine ⟨?_, by decide, by decide, by decide, by decide, by decide⟩
  intro post
  cases h : postGet post "add_hydrogens" with
  | none => simp [addHydrogensFlag, h]
  | some v => simp [addHydrogensFlag, h]

/- ## C4: missing or empty structure text -/

/-- C4 (code evaluation): a request whose POST is non-empty but has no
sdf field makes the view raise an uncaught KeyError instead of answering
a structured error; the empty-POST and empty-value cases do answer
structured errors, with no parse and no store access in either case. -/
theorem molcalc_C4_missing_sdf_field_raises :
    (ajax_submitquantum env0 ⟨none, []⟩ ⟨"10.0.0.1", [("smiles", "CCO")]⟩ [] 0
      = ⟨Response.raised "KeyError", [], []⟩) ∧
    (ajax_submitquantum env0 ⟨none, []⟩ ⟨"10.0.0.1", []⟩ [] 0
      = ⟨Response.err "Error 128 - empty post" "Error. Empty post.", [], []⟩) ∧
    (ajax_submitquantum env0 ⟨none, []⟩ ⟨"10.0.0.1", [("sdf", "")]⟩ [] 0
      = ⟨Response.err "Error 132 - sdf key error" "Error. Missing information.",
         [], []⟩) :=
  ⟨by decide, by decide, by decide⟩

/- ## C3: the heavy-atom ceiling -/

/-- C3: after parsing, conformer check and normalization, the view counts
the atoms whose atomic number is not 1; more than ten of them give the
max-atoms rejection, whose message states the fixed limit of ten, and ten
or fewer never produce that rejection (the bound is inclusive). -/
theorem molcalc_C3_heavy_atom_ceiling {Mol : Type} (env : ChemEnv Mol)
    (settings : Settings) (request : Request) (store : List CalcRecord)
    (now : Nat) (s : String) (m m2 : Mol) (st2 : String) (nev : List Event)
    (hblock : isBlocked settings request.remote_addr = false)
    (hpost : request.post.isEmpty = false)
    (hsdf : postGet request.post "sdf" = some s)
    (hne : s ≠ "")
    (hparse : env.sdfstr_to_molobj s.data = (some m, st2))
    (hconf : env.hasConformer m = true)
    (hnorm : normalizeStep env m (addHydrogensFlag request.post) = (m2, nev)) :
    (((env.molobj_to_atoms m2).filter (fun a => a != 1)).length > 10 →
      ajax_submitquantum env settings request store now =
        ⟨Response.err "Error 194 - max atoms error"
          "Stop Casper. Max ten heavy atoms.", store, Event.parse :: nev⟩) ∧
    (((env.molobj_to_atoms m2).filter (fun a => a != 1)).length ≤ 10 →
      (ajax_submitquantum env settings request store now).resp ≠
        Response.err "Error 194 - max atoms error"
          "Stop Casper. Max ten heavy atoms.") := by
  rw [ajax_reduce env settings request store now s m m2 st2 nev hblock hpost
    hsdf hne hparse hconf hnorm]
  constructor
  · intro hgt
    unfold submitAfterChecks
    rw [if_pos (by simp only [max_atoms]; omega)]
  · intro hle
    unfold submitAfterChecks
    rw [if_neg (by simp only [max_atoms]; omega)]
    cases hstrip : stripHeader3 s.data with
    | none => simp
    | some canonical =>
      cases hfind : store.find?
          (fun r => r.hashkey == md5hex (utf8Encode canonical)) with
      | some r => simp [hfind]
      | none =>
        cases hpipe : env.calculation_pipeline canonical m2
            (md5hex (utf8Encode canonical)) settings with
        | error e => simp [hfind, hpipe]
        | ok pr =>
          rcases pr with ⟨msg, oc⟩
          cases oc <;> simp [hfind, hpipe]

/-- Concrete environment whose parser yields an eleven-heavy-atom
molecule. -/
def chemBig : ChemEnv (List Nat) where
  sdfstr_to_molobj := fun _ => (some (List.replicate 11 6), "")
  molobj_to_atoms := fun m => m
  hasConformer := fun _ => true
  addHs := fun m => m ++ [1]
  embedConfs := fun m _ => m
  molobj_optimize := fun m => m
  molobj_to_sdfstr := fun _ => []
  calculation_pipeline := fun _ _ _ _ => Except.error ""

/-- Concrete environment whose parser yields a ten-heavy-atom molecule. -/
def chemTen : ChemEnv (List Nat) where
  sdfstr_to_molobj := fun _ => (some (List.replicate 10 6), "")
  molobj_to_atoms := fun m => m
  hasConformer := fun _ => true
  addHs := fun m => m ++ [1]
  embedConfs := fun m _ => m
  molobj_optimize := fun m => m
  molobj_to_sdfstr := fun _ => []
  calculation_pipeline := fun _ _ _ _ => Except.error ""

/-- Witness for C3: eleven heavy atoms are rejected with the max-atoms
message, ten heavy atoms are not. -/
theorem molcalc_C3_witness :
    (((chemBig.molobj_to_atoms (List.replicate 11 6 ++ [1])).filter
        (fun a => a != 1)).length > 10) ∧
    ajax_submitquantum chemBig ⟨none, []⟩ ⟨"1.2.3.4", [("sdf", "x")]⟩ [] 0 =
      ⟨Response.err "Error 194 - max atoms error"
         "Stop Casper. Max ten heavy atoms.", [],
       [Event.parse, Event.addHs, Event.embed 1, Event.optimize]⟩ ∧
    (((chemTen.molobj_to_atoms (List.replicate 10 6 ++ [1])).filter
        (fun a => a != 1)).length ≤ 10) ∧
    (ajax_submitquantum chemTen ⟨none, []⟩ ⟨"1.2.3.4", [("sdf", "x")]⟩ [] 0).resp ≠
      Response.err "Error 194 - max atoms error"
        "Stop Casper. Max ten heavy atoms." :=
  ⟨by decide,
   (molcalc_C3_heavy_atom_ceiling chemBig ⟨none, []⟩
      ⟨"1.2.3.4", [("sdf", "x")]⟩ [] 0 "x" (List.replicate 11 6)
      (List.replicate 11 6 ++ [1]) ""
      [Event.addHs, Event.embed 1, Event.optimize] (by decide) (by decide)
      (by decide) (by decide) (by decide) (by decide) (by decide)).1 (by decide),
   by decide,
   (molcalc_C3_heavy_atom_ceiling chemTen ⟨none, []⟩
      ⟨"1.2.3.4", [("sdf", "x")]⟩ [] 0 "x" (List.replicate 10 6)
      (List.replicate 10 6 ++ [1]) ""
      [Event.addHs, Event.embed 1, Event.optimize] (by decide) (by decide)
      (by decide) (by decide) (by decide) (by decide) (by decide)).2 (by decide)⟩

/- ## Reduction of the tail of the view on the dedup-hit and failure paths -/

lemma submitAfterChecks_hit {Mol : Type} (env : ChemEnv Mol)
    (settings : Settings) (store : List CalcRecord) (now : Nat)
    (sdfData : List Char) (m2 : Mol) (nev : List Event)
    (canonical : List Char) (rec : CalcRecord)
    (hheavy : ((env.molobj_to_atoms m2).filter (fun a => a != 1)).length ≤ 10)
    (hstrip : stripHeader3 sdfData = some canonical)
    (hfind : store.find? (fun r => r.hashkey == md5hex (utf8Encode canonical))
      = some rec) :
    submitAfterChecks env settings store now sdfData m2 nev =
      ⟨Response.keyMsg (md5hex (utf8Encode canonical)),
       touchFirst store (md5hex (utf8Encode canonical)) now,
       Event.parse :: nev ++ [Event.lookup (md5hex (utf8Encode canonical))]⟩ := by
  unfold submitAfterChecks
  rw [if_neg (by simp only [max_atoms]; omega)]
  simp [hstrip, hfind]

lemma submitAfterChecks_pipeErr {Mol : Type} (env : ChemEnv Mol)
    (settings : Settings) (store : List CalcRecord) (now : Nat)
    (sdfData : List Char) (m2 : Mol) (nev : List Event)
    (canonical : List Char) (e : String)
    (hheavy : ((env.molobj_to_atoms m2).filter (fun a => a != 1)).length ≤ 10)
    (hstrip : stripHeader3 sdfData = some canonical)
    (hfind : store.find? (fun r => r.hashkey == md5hex (utf8Encode canonical))
      = none)
    (hpipe : env.calculation_pipeline canonical m2
      (md5hex (utf8Encode canonical)) settings = Except.error e) :
    submitAfterChecks env settings store now sdfData m2 nev =
      ⟨Response.err "293" "Internal server server. Uncaught exception", store,
       Event.parse :: nev ++
         [Event.lookup (md5hex (utf8Encode canonical)),
          Event.pipelineRun (md5hex (utf8Encode canonical)),
          Event.logError (md5hex (utf8Encode canonical))
            (env.molobj_to_sdfstr m2)]⟩ := by
  unfold submitAfterChecks
  rw [if_neg (by simp only [max_atoms]; omega)]
  simp [hstrip, hfind, hpipe]

/- ## C1: dedup hit is an idempotent refresh -/

/-- C1: when a submission passes every check and its fingerprint key is
already in the store, the view answers the key alone, never runs the
pipeline, adds nothing to the store, and the only store change is the
found record's timestamp set to now (same key and payload, same length,
all other records untouched). -/
theorem molcalc_C1_dedup_hit {Mol : Type} (env : ChemEnv Mol)
    (settings : Settings) (request : Request) (store : List CalcRecord)
    (now : Nat) (s : String) (m m2 : Mol) (st2 : String) (nev : List Event)
    (canonical : List Char) (rec : CalcRecord)
    (hblock : isBlocked settings request.remote_addr = false)
    (hpost : request.post.isEmpty = false)
    (hsdf : postGet request.post "sdf" = some s)
    (hne : s ≠ "")
    (hparse : env.sdfstr_to_molobj s.data = (some m, st2))
    (hconf : env.hasConformer m = true)
    (hnorm : normalizeStep env m (addHydrogensFlag request.post) = (m2, nev))
    (hheavy : ((env.molobj_to_atoms m2).filter (fun a => a != 1)).length ≤ 10)
    (hstrip : stripHeader3 s.data = some canonical)
    (hfind : store.find? (fun r => r.hashkey == md5hex (utf8Encode canonical))
      = some rec) :
    (ajax_submitquantum env settings request store now).resp =
      Response.keyMsg (md5hex (utf8Encode canonical)) ∧
    (∀ k2, Event.pipelineRun k2 ∉
      (ajax_submitquantum env settings request store now).events) ∧
    (∀ c, Event.dbAdd c ∉
      (ajax_submitquantum env settings request store now).events) ∧
    (ajax_submitquantum env settings request store now).store =
      touchFirst store (md5hex (utf8Encode canonical)) now ∧
    (ajax_submitquantum env settings request store now).store.length =
      store.length ∧
    (∀ r ∈ (ajax_submitquantum env settings request store now).store,
      r ∈ store ∨ ∃ r2 ∈ store, r2.hashkey = r.hashkey ∧ r2.data = r.data ∧
        r.created = now) := by
  have hout : ajax_submitquantum env settings request store now =
      ⟨Response.keyMsg (md5hex (utf8Encode canonical)),
       touchFirst store (md5hex (utf8Encode canonical)) now,
       Event.parse :: nev ++ [Event.lookup (md5hex (utf8Encode canonical))]⟩ :=
    (ajax_reduce env settings request store now s m m2 st2 nev hblock hpost
      hsdf hne hparse hconf hnorm).trans
    (submitAfterChecks_hit env settings store now s.data m2 nev canonical rec
      hheavy hstrip hfind)
  rw [hout]
  have hnev : nev = [] ∨ nev = [Event.addHs, Event.embed 1, Event.optimize] := by
    rcases normalizeStep_events env m (addHydrogensFlag request.post) with h | h
    · left; rw [hnorm] at h; exact h
    · right; rw [hnorm] at h; exact h
  refine ⟨rfl, ?_, ?_, rfl, touchFirst_length store _ now,
    touchFirst_mem store _ now⟩
  · intro k2 hmem
    rcases hnev with h | h <;> subst h <;> simp at hmem
  · intro c hmem
    rcases hnev with h | h <;> subst h <;> simp at hmem

/- ## C5: pipeline failure is contained -/

/-- C5: on a dedup miss where the pipeline raises, the view catches it,
answers the fixed opaque error 293 with a generic message — the same for
every exception value, so nothing of the failure leaks — logs the key and
the re-serialized structure, stores nothing, and leaves the store exactly
as it was. -/
theorem molcalc_C5_pipeline_failure_contained {Mol : Type} (env : ChemEnv Mol)
    (settings : Settings) (request : Request) (store : List CalcRecord)
    (now : Nat) (s : String) (m m2 : Mol) (st2 : String) (nev : List Event)
    (canonical : List Char) (e : String)
    (hblock : isBlocked settings request.remote_addr = false)
    (hpost : request.post.isEmpty = false)
    (hsdf : postGet request.post "sdf" = some s)
    (hne : s ≠ "")
    (hparse : env.sdfstr_to_molobj s.data = (some m, st2))
    (hconf : env.hasConformer m = true)
    (hnorm : normalizeStep env m (addHydrogensFlag request.post) = (m2, nev))
    (hheavy : ((env.molobj_to_atoms m2).filter (fun a => a != 1)).length ≤ 10)
    (hstrip : stripHeader3 s.data = some canonical)
    (hfind : store.find? (fun r => r.hashkey == md5hex (utf8Encode canonical))
      = none)
    (hpipe : env.calculation_pipeline canonical m2
      (md5hex (utf8Encode canonical)) settings = Except.error e) :
    (ajax_submitquantum env settings request store now).resp =
      Response.err "293" "Internal server server. Uncaught exception" ∧
    (ajax_submitquantum env settings request store now).store = store ∧
    Event.logError (md5hex (utf8Encode canonical)) (env.molobj_to_sdfstr m2) ∈
      (ajax_submitquantum env settings request store now).events ∧
    (∀ c, Event.dbAdd c ∉
      (ajax_submitquantum env settings request store now).events) := by
  have hout : ajax_submitquantum env settings request store now =
      ⟨Response.err "293" "Internal server server. Uncaught exception", store,
       Event.parse :: nev ++
         [Event.lookup (md5hex (utf8Encode canonical)),
          Event.pipelineRun (md5hex (utf8Encode canonical)),
          Event.logError (md5hex (utf8Encode canonical))
            (env.molobj_to_sdfstr m2)]⟩ :=
    (ajax_reduce env settings request store now s m m2 st2 nev hblock hpost
      hsdf hne hparse hconf hnorm).trans
    (submitAfterChecks_pipeErr env settings store now s.data m2 nev canonical e
      hheavy hstrip hfind hpipe)
  rw [hout]
  have hnev : nev = [] ∨ nev = [Event.addHs, Event.embed 1, Event.optimize] := by
    rcases normalizeStep_events env m (addHydrogensFlag request.post) with h | h
    · left; rw [hnorm] at h; exact h
    · right; rw [hnorm] at h; exact h
  refine ⟨rfl, rfl, ?_, ?_⟩
  · simp
  · intro c hmem
    rcases hnev with h | h <;> subst h <;> simp at hmem

/-- Concrete environment with a successful parser and pipeline. -/
def chemOk : ChemEnv (List Nat) where
  sdfstr_to_molobj := fun _ => (some [6, 8], "")
  molobj_to_atoms := fun m => m
  hasConformer := fun _ => true
  addHs := fun m => m ++ [1]
  embedConfs := fun m _ => m
  molobj_optimize := fun m => m
  molobj_to_sdfstr := fun _ => "p\nq\nr\nBODY\n".data
  calculation_pipeline := fun _ _ _ _ => Except.ok ("queued", none)

/-- Concrete environment whose pipeline always raises. -/
def chemErr : ChemEnv (List Nat) where
  sdfstr_to_molobj := fun _ => (some [6, 8], "")
  molobj_to_atoms := fun m => m
  hasConformer := fun _ => true
  addHs := fun m => m ++ [1]
  embedConfs := fun m _ => m
  molobj_optimize := fun m => m
  molobj_to_sdfstr := fun _ => "S".data
  calculation_pipeline := fun _ _ _ _ => Except.error "secret stack trace"

/-- Witness for C1: a concrete resubmission whose key is in the store is
answered with the key alone and only refreshes the record's timestamp. -/
theorem molcalc_C1_witness :
    ([({ hashkey := md5hex (utf8Encode "\n\n\nBODY\n".data), created := 5,
         data := "old" } : CalcRecord)].find?
      (fun r => r.hashkey == md5hex (utf8Encode "\n\n\nBODY\n".data)) =
      some { hashkey := md5hex (utf8Encode "\n\n\nBODY\n".data), created := 5,
             data := "old" }) ∧
    (ajax_submitquantum chemOk ⟨none, []⟩
        ⟨"1.1.1.1", [("sdf", "h1\nh2\nh3\nBODY\n")]⟩
        [{ hashkey := md5hex (utf8Encode "\n\n\nBODY\n".data), created := 5,
           data := "old" }] 77).resp =
      Response.keyMsg (md5hex (utf8Encode "\n\n\nBODY\n".data)) ∧
    (ajax_submitquantum chemOk ⟨none, []⟩
        ⟨"1.1.1.1", [("sdf", "h1\nh2\nh3\nBODY\n")]⟩
        [{ hashkey := md5hex (utf8Encode "\n\n\nBODY\n".data), created := 5,
           data := "old" }] 77).store =
      [{ hashkey := md5hex (utf8Encode "\n\n\nBODY\n".data), created := 77,
         data := "old" }] :=
  ⟨by decide,
   (molcalc_C1_dedup_hit chemOk ⟨none, []⟩
      ⟨"1.1.1.1", [("sdf", "h1\nh2\nh3\nBODY\n")]⟩
      [{ hashkey := md5hex (utf8Encode "\n\n\nBODY\n".data), created := 5,
         data := "old" }] 77 "h1\nh2\nh3\nBODY\n" [6, 8] [6, 8, 1] ""
      [Event.addHs, Event.embed 1, Event.optimize] "\n\n\nBODY\n".data
      { hashkey := md5hex (utf8Encode "\n\n\nBODY\n".data), created := 5,
        data := "old" }
      (by decide) (by decide) (by decide) (by decide) (by decide) (by decide)
      (by decide) (by decide) (by decide) (by decide)).1,
   by
    rw [(molcalc_C1_dedup_hit chemOk ⟨none, []⟩
      ⟨"1.1.1.1", [("sdf", "h1\nh2\nh3\nBODY\n")]⟩
      [{ hashkey := md5hex (utf8Encode "\n\n\nBODY\n".data), created := 5,
         data := "old" }] 77 "h1\nh2\nh3\nBODY\n" [6, 8] [6, 8, 1] ""
      [Event.addHs, Event.embed 1, Event.optimize] "\n\n\nBODY\n".data
      { hashkey := md5hex (utf8Encode "\n\n\nBODY\n".data), created := 5,
        data := "old" }
      (by decide) (by decide) (by decide) (by decide) (by decide) (by decide)
      (by decide) (by decide) (by decide) (by decide)).2.2.2.1]
    decide⟩

/-- Witness for C5: a concrete miss whose pipeline raises is answered with
the opaque 293 error artifact and an unchanged store. -/
theorem molcalc_C5_witness :
    (chemErr.calculation_pipeline "\n\n\nBODY\n".data [6, 8, 1]
      (md5hex (utf8Encode "\n\n\nBODY\n".data)) ⟨none, []⟩ =
      Except.error "secret stack trace") ∧
    (ajax_submitquantum chemErr ⟨none, []⟩
        ⟨"1.1.1.1", [("sdf", "h1\nh2\nh3\nBODY\n")]⟩ [] 0).resp =
      Response.err "293" "Internal server server. Uncaught exception" ∧
    (ajax_submitquantum chemErr ⟨none, []⟩
        ⟨"1.1.1.1", [("sdf", "h1\nh2\nh3\nBODY\n")]⟩ [] 0).store = [] :=
  ⟨rfl,
   (molcalc_C5_pipeline_failure_contained chemErr ⟨none, []⟩
      ⟨"1.1.1.1", [("sdf", "h1\nh2\nh3\nBODY\n")]⟩ [] 0 "h1\nh2\nh3\nBODY\n"
      [6, 8] [6, 8, 1] "" [Event.addHs, Event.embed 1, Event.optimize]
      "\n\n\nBODY\n".data "secret stack trace"
      (by decide) (by decide) (by decide) (by decide) (by decide) (by decide)
      (by decide) (by decide) (by decide) (by decide) rfl).1,
   (molcalc_C5_pipeline_failure_contained chemErr ⟨none, []⟩
      ⟨"1.1.1.1", [("sdf", "h1\nh2\nh3\nBODY\n")]⟩ [] 0 "h1\nh2\nh3\nBODY\n"
      [6, 8] [6, 8, 1] "" [Event.addHs, Event.embed 1, Event.optimize]
      "\n\n\nBODY\n".data "secret stack trace"
      (by decide) (by decide) (by decide) (by decide) (by decide) (by decide)
      (by decide) (by decide) (by decide) (by decide) rfl).2.1⟩

/- ## C8: sanitized parse diagnostics -/

/-- C8: on a parse failure the view answers the rdkit error whose message
is the sanitized toolkit diagnostic; that message holds no closing
bracket at all, hence no bracket-delimited numeric index token and no
trailing bracket-delimited identifier. -/
theorem molcalc_C8_sanitized_diagnostics {Mol : Type} (env : ChemEnv Mol)
    (settings : Settings) (request : Request) (store : List CalcRecord)
    (now : Nat) (s status : String)
    (hblock : isBlocked settings request.remote_addr = false)
    (hpost : request.post.isEmpty = false)
    (hsdf : postGet request.post "sdf" = some s)
    (hne : s ≠ "")
    (hparse : env.sdfstr_to_molobj s.data = (none, status)) :
    ajax_submitquantum env settings request store now =
      ⟨Response.err "Error 141 - rdkit error" (sanitizeStatus status), store,
       [Event.parse]⟩ ∧
    ']' ∉ (sanitizeStatus status).data ∧
    ¬ hasBracketedIndexToken (sanitizeStatus status).data := by
  refine ⟨?_, close_not_mem_sanitizeStatus status,
    no_token_of_no_close (close_not_mem_sanitizeStatus status)⟩
  simp only [ajax_submitquantum, hblock, hpost, hsdf, hne, hparse,
    Bool.false_eq_true, if_false, ite_false, ite_true, if_true]

/-- Concrete environment whose parser always fails with a noisy toolkit
diagnostic. -/
def chemParseFail : ChemEnv Nat where
  sdfstr_to_molobj := fun _ => (none, "RDKit ERROR [#14] bad atom # 3")
  molobj_to_atoms := fun _ => []
  hasConformer := fun _ => false
  addHs := fun m => m
  embedConfs := fun m _ => m
  molobj_optimize := fun m => m
  molobj_to_sdfstr := fun _ => []
  calculation_pipeline := fun _ _ _ _ => Except.error ""

/-- Witness for C8: the concrete noisy diagnostic is sanitized before it
is surfaced. -/
theorem molcalc_C8_witness :
    (chemParseFail.sdfstr_to_molobj "x".data =
      (none, "RDKit ERROR [#14] bad atom # 3")) ∧
    ajax_submitquantum chemParseFail ⟨none, []⟩ ⟨"1.1.1.1", [("sdf", "x")]⟩ [] 0 =
      ⟨Response.err "Error 141 - rdkit error" " bad atom ", [], [Event.parse]⟩ ∧
    ']' ∉ (sanitizeStatus "RDKit ERROR [#14] bad atom # 3").data :=
  ⟨rfl,
   by
    rw [(molcalc_C8_sanitized_diagnostics chemParseFail ⟨none, []⟩
      ⟨"1.1.1.1", [("sdf", "x")]⟩ [] 0 "x" "RDKit ERROR [#14] bad atom # 3"
      (by decide) (by decide) (by decide) (by decide) rfl).1]
    decide,
   (molcalc_C8_sanitized_diagnostics chemParseFail ⟨none, []⟩
      ⟨"1.1.1.1", [("sdf", "x")]⟩ [] 0 "x" "RDKit ERROR [#14] bad atom # 3"
      (by decide) (by decide) (by decide) (by decide) rfl).2.1⟩

/- ## C9: the hydrogen policy -/

/-- C9: for a parsed molecule with no hydrogen at all, the flag on makes
the view add hydrogens, embed exactly one conformer and optimize — in
that order — while the flag off leaves the molecule untouched; and under
the collaborator contracts (hydrogen addition adds only hydrogens,
embedding and optimizing preserve the atom list) the heavy-atom count
used at the ceiling check is the same either way. -/
theorem molcalc_C9_hydrogen_policy {Mol : Type} (env : ChemEnv Mol) (m : Mol)
    (hnoH : (env.molobj_to_atoms m).contains 1 = false)
    (hAdd : (env.molobj_to_atoms (env.addHs m)).filter (fun a => a != 1) =
      (env.molobj_to_atoms m).filter (fun a => a != 1))
    (hEmbed : env.molobj_to_atoms (env.embedConfs (env.addHs m) 1) =
      env.molobj_to_atoms (env.addHs m))
    (hOpt : env.molobj_to_atoms
        (env.molobj_optimize (env.embedConfs (env.addHs m) 1)) =
      env.molobj_to_atoms (env.embedConfs (env.addHs m) 1)) :
    normalizeStep env m true =
      (env.molobj_optimize (env.embedConfs (env.addHs m) 1),
       [Event.addHs, Event.embed 1, Event.optimize]) ∧
    normalizeStep env m false = (m, []) ∧
    (∀ b : Bool, ((env.molobj_to_atoms (normalizeStep env m b).1).filter
        (fun a => a != 1)).length =
      ((env.molobj_to_atoms m).filter (fun a => a != 1)).length) := by
  have htrue : normalizeStep env m true =
      (env.molobj_optimize (env.embedConfs (env.addHs m) 1),
       [Event.addHs, Event.embed 1, Event.optimize]) := by
    unfold normalizeStep
    rw [if_pos (by rw [hnoH]; rfl)]
  have hfalse : normalizeStep env m false = (m, []) := by
    unfold normalizeStep
    rw [if_neg (by rw [hnoH]; simp)]
  refine ⟨htrue, hfalse, ?_⟩
  intro b
  cases b
  · rw [hfalse]
  · rw [htrue]
    simp only [hOpt, hEmbed, hAdd]

/-- Witness for C9 at a hydrogen-free two-atom molecule. -/
theorem molcalc_C9_witness :
    (chemTen.molobj_to_atoms [6, 8]).contains 1 = false ∧
    normalizeStep chemTen [6, 8] true =
      ([6, 8, 1], [Event.addHs, Event.embed 1, Event.optimize]) ∧
    normalizeStep chemTen [6, 8] false = ([6, 8], []) :=
  ⟨by decide,
   (molcalc_C9_hydrogen_policy chemTen [6, 8] (by decide) (by decide)
     (by decide) (by decide)).1,
   (molcalc_C9_hydrogen_policy chemTen [6, 8] (by decide) (by decide)
     (by decide) (by decide)).2.1⟩

/- ## C6: header-noise invariance and determinism of the key -/

/-- C6: two submitted texts that agree below their three header lines get
the same fingerprint key, and the key function is deterministic — the
same text always hashes to the same key. -/
theorem molcalc_C6_header_invariance (h1 h2 h3 g1 g2 g3 rest : List Char)
    (e1 : '\n' ∉ h1) (e2 : '\n' ∉ h2) (e3 : '\n' ∉ h3)
    (f1 : '\n' ∉ g1) (f2 : '\n' ∉ g2) (f3 : '\n' ∉ g3) :
    hashkeyOfSdf (h1 ++ '\n' :: (h2 ++ '\n' :: (h3 ++ '\n' :: rest))) =
      hashkeyOfSdf (g1 ++ '\n' :: (g2 ++ '\n' :: (g3 ++ '\n' :: rest))) ∧
    (∀ s : List Char, hashkeyOfSdf s = hashkeyOfSdf s) := by
  constructor
  · unfold hashkeyOfSdf
    rw [stripHeader3_append h1 h2 h3 rest e1 e2 e3,
      stripHeader3_append g1 g2 g3 rest f1 f2 f3]
  · intro s
    rfl

/-- Witness for C6 at two concrete texts differing only in their three
header lines. -/
theorem molcalc_C6_witness :
    ('\n' ∉ ['a']) ∧
    hashkeyOfSdf (['a'] ++ '\n' :: (['b'] ++ '\n' :: (['c'] ++ '\n' ::
        "C 0 0 0\n".data))) =
      hashkeyOfSdf (['x'] ++ '\n' :: (['y'] ++ '\n' :: (['z'] ++ '\n' ::
        "C 0 0 0\n".data))) :=
  ⟨by decide,
   (molcalc_C6_header_invariance ['a'] ['b'] ['c'] ['x'] ['y'] ['z']
     "C 0 0 0\n".data (by decide) (by decide) (by decide) (by decide)
     (by decide) (by decide)).1⟩

/- ## C2: what the fingerprint key is computed from -/

/-- C2 (amended): for every submission that passes parsing, normalization
and the heavy-atom check, the key the view looks up is the 32-character
lowercase-hex MD5 of the UTF-8 bytes of the canonical text, and that
canonical text comes from the submitted structure text — its first three
lines replaced by empty lines, line count and the remainder preserved
exactly — not from a re-serialization of the normalized molecule. -/
theorem molcalc_C2_key_from_submitted_text {Mol : Type} (env : ChemEnv Mol)
    (settings : Settings) (request : Request) (store : List CalcRecord)
    (now : Nat) (s : String) (m m2 : Mol) (st2 : String) (nev : List Event)
    (canonical : List Char)
    (hblock : isBlocked settings request.remote_addr = false)
    (hpost : request.post.isEmpty = false)
    (hsdf : postGet request.post "sdf" = some s)
    (hne : s ≠ "")
    (hparse : env.sdfstr_to_molobj s.data = (some m, st2))
    (hconf : env.hasConformer m = true)
    (hnorm : normalizeStep env m (addHydrogensFlag request.post) = (m2, nev))
    (hheavy : ((env.molobj_to_atoms m2).filter (fun a => a != 1)).length ≤ 10)
    (hstrip : stripHeader3 s.data = some canonical) :
    Event.lookup (md5hex (utf8Encode canonical)) ∈
      (ajax_submitquantum env settings request store now).events ∧
    hashkeyOfSdf s.data = some (md5hex (utf8Encode canonical)) ∧
    (md5hex (utf8Encode canonical)).length = 32 ∧
    (∀ c ∈ (md5hex (utf8Encode canonical)).data, isHexLower c = true) ∧
    (∃ t, canonical = '\n' :: '\n' :: '\n' :: t ∧
      ∃ l1 l2 l3, s.data = l1 ++ '\n' :: (l2 ++ '\n' :: (l3 ++ '\n' :: t)) ∧
        '\n' ∉ l1 ∧ '\n' ∉ l2 ∧ '\n' ∉ l3) := by
  refine ⟨?_, ?_, md5hex_length _, md5hex_isHexLower _,
    stripHeader3_eq_some hstrip⟩
  · rw [ajax_reduce env settings request store now s m m2 st2 nev hblock hpost
      hsdf hne hparse hconf hnorm]
    unfold submitAfterChecks
    rw [if_neg (by simp only [max_atoms]; omega)]
    cases hfind : store.find?
        (fun r => r.hashkey == md5hex (utf8Encode canonical)) with
    | some r => simp [hstrip, hfind]
    | none =>
      cases hpipe : env.calculation_pipeline canonical m2
          (md5hex (utf8Encode canonical)) settings with
      | error e => simp [hstrip, hfind, hpipe]
      | ok pr =>
        rcases pr with ⟨msg, oc⟩
        cases oc <;> simp [hstrip, hfind, hpipe]
  · unfold hashkeyOfSdf
    rw [hstrip]
    rfl

/-- Concrete environment whose serializer disagrees with the submitted
text: hydrogen addition changes the molecule, so its ledger serialization
gains a line the submitted text never had. -/
def chemC2 : ChemEnv (List Nat) where
  sdfstr_to_molobj := fun _ => (some [6], "")
  molobj_to_atoms := fun m => m
  hasConformer := fun _ => true
  addHs := fun m => m ++ [1]
  embedConfs := fun m _ => m
  molobj_optimize := fun m => m
  molobj_to_sdfstr := fun m =>
    if m.contains 1 then "a\nb\nc\nX\nH\n".data else "a\nb\nc\nX\n".data
  calculation_pipeline := fun _ _ _ _ => Except.ok ("ok", none)

/-- Counterexample to C2 as stated: at this concrete passing submission
the key the view looks up is the hash of the submitted text with its
headers blanked, while the hash of the header-blanked serialization of
the normalized molecule — what the claim prescribes — is a different
key. -/
theorem molcalc_C2_counterexample :
    (ajax_submitquantum chemC2 ⟨none, []⟩
        ⟨"1.1.1.1", [("sdf", "a\nb\nc\nX\n")]⟩ [] 0).events =
      [Event.parse, Event.addHs, Event.embed 1, Event.optimize,
       Event.lookup (md5hex (utf8Encode "\n\n\nX\n".data)),
       Event.pipelineRun (md5hex (utf8Encode "\n\n\nX\n".data))] ∧
    normalizeStep chemC2 [6]
        (addHydrogensFlag [("sdf", "a\nb\nc\nX\n")]) =
      ([6, 1], [Event.addHs, Event.embed 1, Event.optimize]) ∧
    specSerializedKey chemC2 [6, 1] =
      some (md5hex (utf8Encode "\n\n\nX\nH\n".data)) ∧
    md5hex (utf8Encode "\n\n\nX\n".data) ≠
      md5hex (utf8Encode "\n\n\nX\nH\n".data) :=
  ⟨by decide, by decide, by decide, by decide⟩

/-- Witness for the amended C2 at a concrete passing submission. -/
theorem molcalc_C2_witness :
    stripHeader3 "a\nb\nc\nX\n".data = some "\n\n\nX\n".data ∧
    Event.lookup (md5hex (utf8Encode "\n\n\nX\n".data)) ∈
      (ajax_submitquantum chemC2 ⟨none, []⟩
        ⟨"1.1.1.1", [("sdf", "a\nb\nc\nX\n")]⟩ [] 0).events ∧
    hashkeyOfSdf "a\nb\nc\nX\n".data =
      some (md5hex (utf8Encode "\n\n\nX\n".data)) :=
  ⟨by decide,
   (molcalc_C2_key_from_submitted_text chemC2 ⟨none, []⟩
      ⟨"1.1.1.1", [("sdf", "a\nb\nc\nX\n")]⟩ [] 0 "a\nb\nc\nX\n" [6] [6, 1] ""
      [Event.addHs, Event.embed 1, Event.optimize] "\n\n\nX\n".data
      (by decide) (by decide) (by decide) (by decide) (by decide) (by decide)
      (by decide) (by decide) (by decide)).1,
   (molcalc_C2_key_from_submitted_text chemC2 ⟨none, []⟩
      ⟨"1.1.1.1", [("sdf", "a\nb\nc\nX\n")]⟩ [] 0 "a\nb\nc\nX\n" [6] [6, 1] ""
      [Event.addHs, Event.embed 1, Event.optimize] "\n\n\nX\n".data
      (by decide) (by decide) (by decide) (by decide) (by decide) (by decide)
      (by decide) (by decide) (by decide)).2.1⟩

/-- Witness for C10 at a concrete request field. -/
theorem molcalc_C10_witness :
    addHydrogensFlag [("add_hydrogens", "1")] = true ↔
      (postGet [("add_hydrogens", "1")] "add_hydrogens" = none ∨
       postGet [("add_hydrogens", "1")] "add_hydrogens" = some "1") :=
  molcalc_C10_add_hydrogens_flag.1 [("add_hydrogens", "1")]
